import Mathlib

/-!
Verification of the M15B3 financial dashboard and reminder mailer
(src/app.py and src/reminders.py) against its specification.

The development shallowly embeds the data-handling core of the two scripts:

* the currency normalizer shared by app.read_cell (src/app.py lines 136-147)
  and reminders.read_saldo_atual (src/reminders.py lines 96-111);
* the spreadsheet-serial date handling of reminders.load_movbank
  (src/reminders.py lines 130-156) and app.dashboard (src/app.py lines
  342-353), where the calendar arithmetic that pandas performs on
  Timestamp objects is embedded as the standard proleptic-Gregorian
  civil-date / day-count conversion with epoch 1899-12-30;
* the bucket classifiers of reminders.run_daily, reminders.run_weekly and
  app.dashboard, over rows with normalized due and payment dates;
* the degraded-result behaviour of the Graph API fetch helpers.

Machine floats of the Python code are modelled as exact rationals; the
claims under verification concern which rows enter which sums, not
floating-point rounding.  DataFrame rows are modelled as lists of records,
and the in-place pandas mutations of run_daily are modelled by explicit
value passing: df_hoje is a copy, so relabelling it leaves the loaded
table unchanged, exactly as `df[mask].copy()` does in the source.
-/

/-! ## Currency normalizer

Embeds the text branch shared verbatim by src/app.py read_cell and
src/reminders.py read_saldo_atual:
`str(raw).strip()`, then `.replace("R$", "")`, then `.replace(" ", "")`,
then the separator disambiguation, then `float(s)` with `0.0` on failure.
Python `float` on the strings that can reach this call is modelled as a
parser of optionally signed decimal literals.  -/

/-- Python `str.strip`: drop whitespace from both ends. -/
def pyStrip (l : List Char) : List Char :=
  ((l.dropWhile Char.isWhitespace).reverse.dropWhile Char.isWhitespace).reverse

/-- Python `str.replace("R$", "")`: remove every (non-overlapping,
left-to-right) occurrence of the two-character currency marker. -/
def removeRS : List Char → List Char
  | [] => []
  | 'R' :: '$' :: rest => removeRS rest
  | c :: rest => c :: removeRS rest

/-- Python `str.replace(" ", "")`. -/
def removeSpaces (l : List Char) : List Char := l.filter (fun c => c ≠ ' ')

/-- The full pre-parse cleanup of the source: strip, drop the currency
marker, drop spaces. -/
def stripCurrency (l : List Char) : List Char := removeSpaces (removeRS (pyStrip l))

/-- Separator disambiguation of the source: with both separators present,
dots are removed and the comma becomes the decimal point; with only a
comma, it becomes the decimal point; otherwise the text is unchanged. -/
def normalizeSeps (l : List Char) : List Char :=
  if l.contains ',' ∧ l.contains '.' then
    (l.filter (fun c => c ≠ '.')).map (fun c => if c = ',' then '.' else c)
  else if l.contains ',' then
    l.map (fun c => if c = ',' then '.' else c)
  else l

/-- Split a character list at every occurrence of a separator. -/
def splitOnChar (sep : Char) : List Char → List (List Char)
  | [] => [[]]
  | c :: rest =>
    if c = sep then [] :: splitOnChar sep rest
    else
      match splitOnChar sep rest with
      | [] => [[c]]
      | p :: ps => (c :: p) :: ps

/-- Numeric value of a digit string (most significant first). -/
def digitsToNat (l : List Char) : Nat := l.foldl (fun a c => a * 10 + (c.toNat - 48)) 0

/-- Python `float` restricted to the decimal literals that can reach it in
this program: an optional sign, then digits with at most one decimal
point and at least one digit.  Anything else fails (Python raises, the
callers catch and use 0.0). -/
def pyFloat (l : List Char) : Option ℚ :=
  let sgn : ℚ := if l.head? = some '-' then -1 else 1
  let body := if l.head? = some '-' ∨ l.head? = some '+' then l.tail else l
  match splitOnChar '.' body with
  | [ip] =>
      if ip ≠ [] ∧ ip.all Char.isDigit then some (sgn * (digitsToNat ip : ℚ)) else none
  | [ip, fp] =>
      if (ip ≠ [] ∨ fp ≠ []) ∧ ip.all Char.isDigit ∧ fp.all Char.isDigit then
        some (sgn * ((digitsToNat ip : ℚ) + (digitsToNat fp : ℚ) / 10 ^ fp.length))
      else none
  | _ => none

/-- A raw spreadsheet cell as the Graph JSON delivers it: a number or text. -/
inductive RawCell where
  | num (q : ℚ)
  | text (s : String)
deriving DecidableEq, Repr

/-- The currency normalizer: numbers are cast directly; text goes through
cleanup, separator disambiguation and the float parse, with 0 on any
failure.  Mirrors src/app.py lines 136-147 and src/reminders.py lines
96-111, which are character-for-character the same transformation. -/
def parse_currency : RawCell → ℚ
  | .num q => q
  | .text s => (pyFloat (normalizeSeps (stripCurrency s.toList))).getD 0

/-! ## Calendar arithmetic

src/reminders.py lines 130-156 and src/app.py lines 342-353 convert the
VECTO / DATA DE PGTO cells to dates: numeric values are day counts from
the epoch 1899-12-30 (`pd.to_datetime("1899-12-30") + pd.to_timedelta(n,
unit="D")`), text values are parsed day-first and turned into the same
day count (`(dt - pd.to_datetime("1899-12-30")).dt.days`).  The calendar
arithmetic pandas performs is embedded as the standard proleptic
Gregorian civil-date / day-count conversion (Hinnant's algorithm, floor
division). -/

structure CivilDate where
  year : Int
  month : Nat
  day : Nat
deriving DecidableEq, Repr

/-- Gregorian leap-year rule. -/
def isLeap (y : Int) : Bool := (y % 4 == 0 && y % 100 != 0) || (y % 400 == 0)

/-- Length of a month in the proleptic Gregorian calendar. -/
def daysInMonth (y : Int) (m : Nat) : Nat :=
  if m = 2 then (if isLeap y then 29 else 28)
  else if m = 4 ∨ m = 6 ∨ m = 9 ∨ m = 11 then 30 else 31

/-- A calendar date is valid when its month is 1..12 and its day fits the
month. -/
def validDate (d : CivilDate) : Prop :=
  1 ≤ d.month ∧ d.month ≤ 12 ∧ 1 ≤ d.day ∧ d.day ≤ daysInMonth d.year d.month

instance (d : CivilDate) : Decidable (validDate d) := by
  unfold validDate; infer_instance

/-- Year of era from day of era (part of the day-count-to-date direction). -/
def yoe_from_doe (doe : Int) : Int := (doe - doe / 1460 + doe / 36524 - doe / 146096) / 365

/-- Days since 1970-01-01 of a civil date (proleptic Gregorian). -/
def daysFromCivil (dt : CivilDate) : Int :=
  let y : Int := if dt.month ≤ 2 then dt.year - 1 else dt.year
  let era : Int := y / 400
  let yoe : Int := y - era * 400
  let mp : Int := ((dt.month : Int) + 9) % 12
  let doy : Int := (153 * mp + 2) / 5 + (dt.day : Int) - 1
  let doe : Int := yoe * 365 + yoe / 4 - yoe / 100 + doy
  era * 146097 + doe - 719468

/-- Civil date of a count of days since 1970-01-01 (proleptic Gregorian). -/
def civilFromDays (z0 : Int) : CivilDate :=
  let z := z0 + 719468
  let era : Int := z / 146097
  let doe : Int := z - era * 146097
  let yoe : Int := yoe_from_doe doe
  let doy : Int := doe - (365 * yoe + yoe / 4 - yoe / 100)
  let mp : Int := (5 * doy + 2) / 153
  let d : Int := doy - (153 * mp + 2) / 5 + 1
  let m : Int := if mp < 10 then mp + 3 else mp - 9
  ⟨(if m ≤ 2 then yoe + era * 400 + 1 else yoe + era * 400), m.toNat, d.toNat⟩

/-- Day count relative to 1899-12-30, the epoch the source subtracts when
turning a parsed text date into a serial: 1899-12-30 is day -25569 of the
Unix epoch. -/
def dateToSerial (dt : CivilDate) : Int := daysFromCivil dt + 25569

/-- Date of a day count relative to 1899-12-30, as the source's
`epoch + pd.to_timedelta(n, unit="D")` computes it. -/
def serialToDate (n : Int) : CivilDate := civilFromDays (n - 25569)

/-! ## Date-cell normalization -/

/-- Digit string to number, failing on empty or non-digit input. -/
def parseNatDigits (l : List Char) : Option Nat :=
  if l ≠ [] ∧ l.all Char.isDigit then some (digitsToNat l) else none

/-- Day-first text date parse, the `pd.to_datetime(..., dayfirst=True,
errors="coerce")` of the source restricted to the dd/mm/yyyy shape, with
calendar validation; anything else coerces to the unknown sentinel. -/
def parseDayFirst (s : String) : Option CivilDate :=
  match splitOnChar '/' s.toList with
  | [ds, ms, ys] =>
    match parseNatDigits ds, parseNatDigits ms, parseNatDigits ys with
    | some dd, some mm, some yy =>
        if validDate ⟨(yy : Int), mm, dd⟩ then some ⟨(yy : Int), mm, dd⟩ else none
    | _, _, _ => none
  | _ => none

/-- A raw date cell: a number (spreadsheet serial) or text. -/
inductive DateCell where
  | num (q : ℚ)
  | text (s : String)
deriving DecidableEq, Repr

/-- Normalization of a due-date or payment-date cell, mirroring
src/reminders.py lines 130-138: `pd.to_numeric` first (numbers and
numeric text become serials; `.dt.date` truncates fractional serials),
then the day-first text parse converted to a serial through the
1899-12-30 epoch; if both fail the result is the unknown sentinel
(pandas NaT), here `none`. -/
def normalizeDateCell : DateCell → Option Int
  | .num q => some ⌊q⌋
  | .text s =>
    match pyFloat s.toList with
    | some q => some ⌊q⌋
    | none => (parseDayFirst s).map dateToSerial

/-! ## Rows and bucket classifiers -/

/-- A normalized movbank row: due date serial (none = NaT), payment date
serial (none = NaT / missing column), amount, status text. -/
structure Row where
  vecto : Option Int
  pgto : Option Int
  valor : ℚ
  status : String
deriving DecidableEq, Repr

/-- DATA_REF of src/reminders.py line 156: the payment date where present,
else the due date. -/
def dataRef (r : Row) : Option Int :=
  match r.pgto with
  | some d => some d
  | none => r.vecto

/-- Sum of the VALOR column. -/
def sumValor (l : List Row) : ℚ := (l.map Row.valor).sum

/-- mask_dia of src/reminders.py line 375: DATA_REF equals today (false on
NaT, as pandas comparisons with NaT are). -/
def mask_dia (hoje : Int) (r : Row) : Bool := dataRef r = some hoje

/-- mask_atraso of src/reminders.py line 379: due date strictly before
today and no payment date. -/
def mask_atraso (hoje : Int) (r : Row) : Bool :=
  (match r.vecto with
   | some v => decide (v < hoje)
   | none => false) && r.pgto.isNone

/-- The display relabel of src/reminders.py lines 383-384: a PAGO status
becomes AGENDADO. -/
def relabelPago (r : Row) : Row :=
  if r.status = "PAGO" then { r with status := "AGENDADO" } else r

/-- Result of one daily-report computation (src/reminders.py run_daily and
resumo_diario_html): the untouched loaded table, the two buckets, and the
displayed totals and balances. -/
structure DailyReport where
  table : List Row
  dfHoje : List Row
  dfAtraso : List Row
  totalHoje : ℚ
  totalAtraso : ℚ
  totalPagoDia : ℚ
  saldoAjustado : ℚ
  saldoPosDia : ℚ
deriving Repr

/-- run_daily of src/reminders.py lines 354-407 (data part, in source
order): the Today bucket is a relabelled copy of the DATA_REF = today
rows, the Overdue bucket filters on due date and missing payment date,
total_pago_dia is read off the original table, and the balances follow
resumo_diario_html.  The source's sort_values calls only reorder rows and
are omitted. -/
def run_daily (hoje : Int) (saldoAtual : ℚ) (df : List Row) : DailyReport :=
  let dfHoje0 := df.filter (mask_dia hoje)
  let dfHoje := dfHoje0.map relabelPago
  let dfAtraso := df.filter (mask_atraso hoje)
  let totalHoje := sumValor dfHoje
  let totalAtraso := sumValor dfAtraso
  let totalPagoDia := sumValor (df.filter (fun r => mask_dia hoje r && decide (r.status = "PAGO")))
  let saldoAjustado := saldoAtual + totalPagoDia
  ⟨df, dfHoje, dfAtraso, totalHoje, totalAtraso, totalPagoDia, saldoAjustado,
    saldoAjustado - totalHoje⟩

/-- The weekly window of src/reminders.py lines 417-418: fixed offsets
today - 2 and today + 4, commented in the source as Monday arithmetic. -/
def weeklyWindow (hoje : Int) : Int × Int := (hoje - 2, hoje + 4)

/-- mask_periodo of src/reminders.py line 438: DATA_REF within the weekly
window, inclusive on both ends. -/
def mask_periodo (hoje : Int) (r : Row) : Bool :=
  match dataRef r with
  | some d => decide (hoje - 2 ≤ d) && decide (d ≤ hoje + 4)
  | none => false

/-- Result of one weekly-report computation. -/
structure WeeklyReport where
  alvo : List Row
  totalPeriodo : ℚ
  saldoFinal : ℚ
deriving Repr

/-- run_weekly of src/reminders.py lines 412-459 (data part): rows whose
DATA_REF lies in the window and whose status is not PAGO, their total,
and the projected balance of resumo_semanal_html. -/
def run_weekly (hoje : Int) (saldoAtual : ℚ) (df : List Row) : WeeklyReport :=
  let alvo := df.filter (fun r => mask_periodo hoje r && decide (r.status ≠ "PAGO"))
  let totalPeriodo := sumValor alvo
  ⟨alvo, totalPeriodo, saldoAtual - totalPeriodo⟩

/-! ## Dashboard filters (src/app.py lines 371-391) -/

/-- Day of week of a serial, Monday = 0 as in Python `date.weekday()`;
serial 0 (1899-12-30) was a Saturday, hence the offset 5. -/
def weekday (n : Int) : Int := (n + 5) % 7

/-- The dashboard Semana window of src/app.py lines 379-385: last Saturday
on or before today through the following Friday, via Python modular
arithmetic on weekdays. -/
def dashboardWeekWindow (hoje : Int) : Int × Int :=
  let diasAteSabado := (weekday hoje - 5) % 7
  let diasAteSexta := (4 - weekday hoje) % 7
  (hoje - diasAteSabado, hoje + diasAteSexta)

/-- The dashboard Hoje filter of src/app.py line 378: due date equals
today.  The dashboard never looks at payment dates. -/
def hoje_mask (hoje : Int) (r : Row) : Bool := r.vecto = some hoje

/-- The dashboard Hoje view: filter only, statuses displayed unchanged. -/
def dashboardHoje (hoje : Int) (df : List Row) : List Row := df.filter (hoje_mask hoje)

/-- The dashboard Semana filter of src/app.py lines 386-389: due date
within the Sat-Fri window, inclusive. -/
def semana_mask (hoje : Int) (r : Row) : Bool :=
  match r.vecto with
  | some v =>
      decide ((dashboardWeekWindow hoje).1 ≤ v) && decide (v ≤ (dashboardWeekWindow hoje).2)
  | none => false

/-- The dashboard Semana view. -/
def dashboardSemana (hoje : Int) (df : List Row) : List Row := df.filter (semana_mask hoje)

/-! ## Graph API fetch helpers and degraded results -/

/-- The body of one HTTP response as `r.json()` sees it: either not JSON
(so `r.json()` raises), or a JSON object that may carry an `error` key
and a payload.  The sources never inspect the HTTP status code; non-2xx
Graph responses surface as bodies with an `error` key or without the
expected payload. -/
inductive Resp (α : Type) where
  | malformed
  | body (hasError : Bool) (value : α)

/-- A fetched table. -/
structure DataFrame where
  cols : List String
  rows : List (List RawCell)
deriving DecidableEq, Repr

/-- The empty DataFrame. -/
def DataFrame.empty : DataFrame := ⟨[], []⟩

/-- read_table of src/app.py lines 96-118: a `try` wraps both `.json()`
calls, so a malformed body yields the empty table; so does an `error` key
in either response. -/
def appReadTable (colsResp : Resp (List String)) (rowsResp : Resp (List (List RawCell))) :
    DataFrame :=
  match colsResp, rowsResp with
  | .body ce cols, .body re rows => if ce || re then DataFrame.empty else ⟨cols, rows⟩
  | _, _ => DataFrame.empty

/-- read_table of src/reminders.py lines 41-67: the `.json()` calls are not
guarded, so a malformed body raises; an `error` key in either response
yields the empty table. -/
def remReadTable (colsResp : Resp (List String)) (rowsResp : Resp (List (List RawCell))) :
    Except String DataFrame :=
  match colsResp, rowsResp with
  | .malformed, _ => .error ("JSONDecodeError")
  | _, .malformed => .error ("JSONDecodeError")
  | .body ce cols, .body re rows =>
      if ce then .ok DataFrame.empty
      else if re then .ok DataFrame.empty
      else .ok ⟨cols, rows⟩

/-- read_cell of src/app.py lines 122-147: `j = r.json()` is unguarded
(malformed raises); a body without a `values` payload yields 0.0; a
payload is parsed by the currency normalizer. -/
def appReadCell (resp : Resp (Option RawCell)) : Except String ℚ :=
  match resp with
  | .malformed => .error ("JSONDecodeError")
  | .body _ none => .ok 0
  | .body _ (some raw) => .ok (parse_currency raw)

/-- read_saldo_atual of src/reminders.py lines 70-114: `j = r.json()` is
unguarded (malformed raises); an `error` key yields 0.0; a missing
`values` payload yields 0.0; otherwise the currency normalizer runs. -/
def remReadSaldo (resp : Resp (Option RawCell)) : Except String ℚ :=
  match resp with
  | .malformed => .error ("JSONDecodeError")
  | .body true _ => .ok 0
  | .body false none => .ok 0
  | .body false (some raw) => .ok (parse_currency raw)

/-! ## Helper lemmas -/

/-- Sanity anchor: serial 0 is the epoch 1899-12-30 and serial 25569 is
1970-01-01, matching the subtraction the source performs. -/
theorem epoch_anchor :
    daysFromCivil ⟨1899, 12, 30⟩ = -25569 ∧ serialToDate 0 = ⟨1899, 12, 30⟩
    ∧ serialToDate 25569 = ⟨1970, 1, 1⟩ ∧ weekday 0 = 5 ∧ weekday 25569 = 3 := by
  decide

/-- Recovery of the year of era from the day of era, the arithmetically
delicate step of the day-count-to-date direction. -/
theorem yoe_recover (yoe doy doe : Int) (h1 : 0 ≤ yoe) (h2 : yoe ≤ 399) (h3 : 0 ≤ doy)
    (h4 : doy ≤ 364 ∨ (doy = 365 ∧ (yoe + 1) % 4 = 0 ∧ ((yoe + 1) % 100 ≠ 0 ∨ (yoe + 1) % 400 = 0)))
    (hdoe : doe = yoe * 365 + yoe / 4 - yoe / 100 + doy) :
    yoe_from_doe doe = yoe := by
  unfold yoe_from_doe
  obtain ⟨a, r, hyoe, hr0, hr3, ha0⟩ :
      ∃ a r, yoe = 4 * a + r ∧ 0 ≤ r ∧ r ≤ 3 ∧ 0 ≤ a :=
    ⟨yoe / 4, yoe % 4, by omega, by omega, by omega, by omega⟩
  obtain ⟨b, hb0, hb3, hab1, hab2⟩ :
      ∃ b, 0 ≤ b ∧ b ≤ 3 ∧ 25 * b ≤ a ∧ a ≤ 25 * b + 24 :=
    ⟨yoe / 100, by omega, by omega, by omega, by omega⟩
  have hd4 : yoe / 4 = a := by omega
  have hd100 : yoe / 100 = b := by omega
  rw [hd4, hd100, hyoe] at hdoe
  have h365 : doy = 365 → (r = 3 ∧ (¬(a = 25 * b + 24 ∧ r = 3) ∨ b = 3)) := by
    intro hdoy
    rcases h4 with h | ⟨h365, hm4, hm⟩
    · omega
    · exact ⟨by omega, by rcases hm with hm | hm; exact Or.inl (by omega); exact Or.inr (by omega)⟩
  have hdoy : 0 ≤ doy ∧ doy ≤ 365 := by
    rcases h4 with h | ⟨h, _⟩ <;> omega
  clear h4 hd4 hd100 h1 h2
  subst hyoe
  have hE : doe / 1460 = a ∨ doe / 1460 = a + 1 := by omega
  have hE1 : doe / 1460 = a + 1 → 269 ≤ doy := by omega
  have hE2 : doy = 365 → doe / 1460 = a + 1 := by omega
  have hF : doe / 36524 = b ∨ (doe = 146096 ∧ doe / 36524 = 4 ∧ b = 3) := by omega
  have hdoe2 : 0 ≤ doe ∧ doe ≤ 146096 := by omega
  have hG : (doe = 146096 ∧ doe / 146096 = 1) ∨ (doe < 146096 ∧ doe / 146096 = 0) := by omega
  omega

/-- Behaviour of civilFromDays on an argument presented as era and day of
era, with the day of era decomposed into a year of era and a day of
(March-based) year. -/
theorem civilFromDays_spec (era yoe doy : Int)
    (h1 : 0 ≤ yoe) (h2 : yoe ≤ 399) (h3 : 0 ≤ doy)
    (h4 : doy ≤ 364 ∨ (doy = 365 ∧ (yoe + 1) % 4 = 0 ∧ ((yoe + 1) % 100 ≠ 0 ∨ (yoe + 1) % 400 = 0))) :
    civilFromDays (era * 146097 + (yoe * 365 + yoe / 4 - yoe / 100 + doy) - 719468)
    = ⟨(if (if (5 * doy + 2) / 153 < 10 then (5 * doy + 2) / 153 + 3 else (5 * doy + 2) / 153 - 9) ≤ 2
          then yoe + era * 400 + 1 else yoe + era * 400),
       (if (5 * doy + 2) / 153 < 10 then (5 * doy + 2) / 153 + 3 else (5 * doy + 2) / 153 - 9).toNat,
       (doy - (153 * ((5 * doy + 2) / 153) + 2) / 5 + 1).toNat⟩ := by
  have hdoeB : 0 ≤ yoe * 365 + yoe / 4 - yoe / 100 + doy
      ∧ yoe * 365 + yoe / 4 - yoe / 100 + doy ≤ 146096 := by
    rcases h4 with h | ⟨h, _⟩ <;> omega
  generalize hD : yoe * 365 + yoe / 4 - yoe / 100 + doy = doe at hdoeB ⊢
  simp only [civilFromDays]
  have h719 : era * 146097 + doe - 719468 + 719468 = era * 146097 + doe := by ring
  rw [h719]
  have hera : (era * 146097 + doe) / 146097 = era := by omega
  rw [hera]
  have hdoe2 : era * 146097 + doe - era * 146097 = doe := by ring
  rw [hdoe2]
  have hyoe : yoe_from_doe doe = yoe := yoe_recover yoe doy doe h1 h2 h3 h4 hD.symm
  rw [hyoe]
  have hdoy : doe - (365 * yoe + yoe / 4 - yoe / 100) = doy := by omega
  rw [hdoy]

/-- Roundtrip of the two calendar conversions on every valid date. -/
theorem civilFromDays_daysFromCivil (dt : CivilDate) (h : validDate dt) :
    civilFromDays (daysFromCivil dt) = dt := by
  obtain ⟨y, m, d⟩ := dt
  obtain ⟨hm1, hm2, hd1, hd2⟩ := h
  simp only at hm1 hm2 hd1 hd2
  obtain ⟨era, yoe, hsplit, hy1, hy2⟩ :
      ∃ era yoe, (if m ≤ 2 then y - 1 else y) = era * 400 + yoe ∧ 0 ≤ yoe ∧ yoe ≤ 399 :=
    ⟨(if m ≤ 2 then y - 1 else y) / 400, (if m ≤ 2 then y - 1 else y) % 400,
      by omega, by omega, by omega⟩
  interval_cases m <;> simp only [daysInMonth, isLeap] at hd2 <;> norm_num at hd2 hsplit
  · have harg : daysFromCivil ⟨y, 1, d⟩
        = era * 146097 + (yoe * 365 + yoe / 4 - yoe / 100 + ((306:Int) + (d:Int) - 1)) - 719468 := by
      simp only [daysFromCivil]
      norm_num
      omega
    rw [harg, civilFromDays_spec era yoe ((306:Int) + (d:Int) - 1) hy1 hy2 (by omega) (Or.inl (by omega))]
    have hmp : (5 * ((306:Int) + (d:Int) - 1) + 2) / 153 = 10 := by omega
    rw [hmp]
    simp only [CivilDate.mk.injEq]
    norm_num
    omega
  · have harg : daysFromCivil ⟨y, 2, d⟩
        = era * 146097 + (yoe * 365 + yoe / 4 - yoe / 100 + ((337:Int) + (d:Int) - 1)) - 719468 := by
      simp only [daysFromCivil]
      norm_num
      omega
    have h4 : ((337:Int) + (d:Int) - 1) ≤ 364 ∨ (((337:Int) + (d:Int) - 1) = 365 ∧ (yoe + 1) % 4 = 0 ∧
        ((yoe + 1) % 100 ≠ 0 ∨ (yoe + 1) % 400 = 0)) := by
      rcases Nat.lt_or_ge d 29 with hlt | hge
      · exact Or.inl (by omega)
      · refine Or.inr ?_
        split_ifs at hd2 <;> omega
    rw [harg, civilFromDays_spec era yoe ((337:Int) + (d:Int) - 1) hy1 hy2 (by omega) h4]
    have hmp : (5 * ((337:Int) + (d:Int) - 1) + 2) / 153 = 11 := by omega
    rw [hmp]
    simp only [CivilDate.mk.injEq]
    norm_num
    omega
  · have harg : daysFromCivil ⟨y, 3, d⟩
        = era * 146097 + (yoe * 365 + yoe / 4 - yoe / 100 + ((0:Int) + (d:Int) - 1)) - 719468 := by
      simp only [daysFromCivil]
      norm_num
      omega
    rw [harg, civilFromDays_spec era yoe ((0:Int) + (d:Int) - 1) hy1 hy2 (by omega) (Or.inl (by omega))]
    have hmp : (5 * ((0:Int) + (d:Int) - 1) + 2) / 153 = 0 := by omega
    rw [hmp]
    simp only [CivilDate.mk.injEq]
    norm_num
    omega
  · have harg : daysFromCivil ⟨y, 4, d⟩
        = era * 146097 + (yoe * 365 + yoe / 4 - yoe / 100 + ((31:Int) + (d:Int) - 1)) - 719468 := by
      simp only [daysFromCivil]
      norm_num
      omega
    rw [harg, civilFromDays_spec era yoe ((31:Int) + (d:Int) - 1) hy1 hy2 (by omega) (Or.inl (by omega))]
    have hmp : (5 * ((31:Int) + (d:Int) - 1) + 2) / 153 = 1 := by omega
    rw [hmp]
    simp only [CivilDate.mk.injEq]
    norm_num
    omega
  · have harg : daysFromCivil ⟨y, 5, d⟩
        = era * 146097 + (yoe * 365 + yoe / 4 - yoe / 100 + ((61:Int) + (d:Int) - 1)) - 719468 := by
      simp only [daysFromCivil]
      norm_num
      omega
    rw [harg, civilFromDays_spec era yoe ((61:Int) + (d:Int) - 1) hy1 hy2 (by omega) (Or.inl (by omega))]
    have hmp : (5 * ((61:Int) + (d:Int) - 1) + 2) / 153 = 2 := by omega
    rw [hmp]
    simp only [CivilDate.mk.injEq]
    norm_num
    omega
  · have harg : daysFromCivil ⟨y, 6, d⟩
        = era * 146097 + (yoe * 365 + yoe / 4 - yoe / 100 + ((92:Int) + (d:Int) - 1)) - 719468 := by
      simp only [daysFromCivil]
      norm_num
      omega
    rw [harg, civilFromDays_spec era yoe ((92:Int) + (d:Int) - 1) hy1 hy2 (by omega) (Or.inl (by omega))]
    have hmp : (5 * ((92:Int) + (d:Int) - 1) + 2) / 153 = 3 := by omega
    rw [hmp]
    simp only [CivilDate.mk.injEq]
    norm_num
    omega
  · have harg : daysFromCivil ⟨y, 7, d⟩
        = era * 146097 + (yoe * 365 + yoe / 4 - yoe / 100 + ((122:Int) + (d:Int) - 1)) - 719468 := by
      simp only [daysFromCivil]
      norm_num
      omega
    rw [harg, civilFromDays_spec era yoe ((122:Int) + (d:Int) - 1) hy1 hy2 (by omega) (Or.inl (by omega))]
    have hmp : (5 * ((122:Int) + (d:Int) - 1) + 2) / 153 = 4 := by omega
    rw [hmp]
    simp only [CivilDate.mk.injEq]
    norm_num
    omega
  · have harg : daysFromCivil ⟨y, 8, d⟩
        = era * 146097 + (yoe * 365 + yoe / 4 - yoe / 100 + ((153:Int) + (d:Int) - 1)) - 719468 := by
      simp only [daysFromCivil]
      norm_num
      omega
    rw [harg, civilFromDays_spec era yoe ((153:Int) + (d:Int) - 1) hy1 hy2 (by omega) (Or.inl (by omega))]
    have hmp : (5 * ((153:Int) + (d:Int) - 1) + 2) / 153 = 5 := by omega
    rw [hmp]
    simp only [CivilDate.mk.injEq]
    norm_num
    omega
  · have harg : daysFromCivil ⟨y, 9, d⟩
        = era * 146097 + (yoe * 365 + yoe / 4 - yoe / 100 + ((184:Int) + (d:Int) - 1)) - 719468 := by
      simp only [daysFromCivil]
      norm_num
      omega
    rw [harg, civilFromDays_spec era yoe ((184:Int) + (d:Int) - 1) hy1 hy2 (by omega) (Or.inl (by omega))]
    have hmp : (5 * ((184:Int) + (d:Int) - 1) + 2) / 153 = 6 := by omega
    rw [hmp]
    simp only [CivilDate.mk.injEq]
    norm_num
    omega
  · have harg : daysFromCivil ⟨y, 10, d⟩
        = era * 146097 + (yoe * 365 + yoe / 4 - yoe / 100 + ((214:Int) + (d:Int) - 1)) - 719468 := by
      simp only [daysFromCivil]
      norm_num
      omega
    rw [harg, civilFromDays_spec era yoe ((214:Int) + (d:Int) - 1) hy1 hy2 (by omega) (Or.inl (by omega))]
    have hmp : (5 * ((214:Int) + (d:Int) - 1) + 2) / 153 = 7 := by omega
    rw [hmp]
    simp only [CivilDate.mk.injEq]
    norm_num
    omega
  · have harg : daysFromCivil ⟨y, 11, d⟩
        = era * 146097 + (yoe * 365 + yoe / 4 - yoe / 100 + ((245:Int) + (d:Int) - 1)) - 719468 := by
      simp only [daysFromCivil]
      norm_num
      omega
    rw [harg, civilFromDays_spec era yoe ((245:Int) + (d:Int) - 1) hy1 hy2 (by omega) (Or.inl (by omega))]
    have hmp : (5 * ((245:Int) + (d:Int) - 1) + 2) / 153 = 8 := by omega
    rw [hmp]
    simp only [CivilDate.mk.injEq]
    norm_num
    omega
  · have harg : daysFromCivil ⟨y, 12, d⟩
        = era * 146097 + (yoe * 365 + yoe / 4 - yoe / 100 + ((275:Int) + (d:Int) - 1)) - 719468 := by
      simp only [daysFromCivil]
      norm_num
      omega
    rw [harg, civilFromDays_spec era yoe ((275:Int) + (d:Int) - 1) hy1 hy2 (by omega) (Or.inl (by omega))]
    have hmp : (5 * ((275:Int) + (d:Int) - 1) + 2) / 153 = 9 := by omega
    rw [hmp]
    simp only [CivilDate.mk.injEq]
    norm_num
    omega

/-- The day-first parser only returns calendar-valid dates. -/
theorem parseDayFirst_valid (s : String) (dt : CivilDate) (h : parseDayFirst s = some dt) :
    validDate dt := by
  unfold parseDayFirst at h
  split at h
  · split at h
    · split at h
      · rename_i hv
        exact Option.some_inj.mp h ▸ hv
      · exact absurd h (by simp)
    all_goals exact absurd h (by simp)
  · exact absurd h (by simp)

/-! ## Claim theorems -/

/-- C6: serial-to-date and date-to-serial conversion round-trip: for every
valid calendar date, converting it to a day count relative to the
1899-12-30 epoch (as done for text-parsed dates) and adding that count
back to the epoch yields the same date; consequently a successfully
parsed dd/mm/yyyy text date normalizes to the same calendar date as the
direct parse. -/
theorem c6_serial_roundtrip :
    (∀ dt : CivilDate, validDate dt → serialToDate (dateToSerial dt) = dt)
    ∧ (∀ (s : String) (dt : CivilDate), parseDayFirst s = some dt →
        serialToDate (dateToSerial dt) = dt) := by
  have main : ∀ dt : CivilDate, validDate dt → serialToDate (dateToSerial dt) = dt := by
    intro dt h
    have harg : dateToSerial dt - 25569 = daysFromCivil dt := by
      unfold dateToSerial; ring
    unfold serialToDate
    rw [harg]
    exact civilFromDays_daysFromCivil dt h
  exact ⟨main, fun s dt h => main dt (parseDayFirst_valid s dt h)⟩

/-- Witness for C6 at the leap day 2024-02-29, serial 45351. -/
theorem c6_serial_roundtrip_witness :
    validDate ⟨2024, 2, 29⟩ ∧ serialToDate (dateToSerial ⟨2024, 2, 29⟩) = ⟨2024, 2, 29⟩ :=
  ⟨by decide, c6_serial_roundtrip.1 ⟨2024, 2, 29⟩ (by decide)⟩

/-- C5: the currency parser casts numeric cells directly; on text it
strips the currency marker and whitespace, removes dots and maps the
comma to a dot when both separators appear, maps the comma to a dot when
only a comma appears, and yields 0 on any parse failure; in particular
it maps "R$ 1.234,56" to 1234.56, "1234,56" to 1234.56 and "garbage"
to 0. -/
theorem c5_parse_currency :
    (∀ q : ℚ, parse_currency (.num q) = q)
    ∧ parse_currency (.text ("R$ 1.234,56")) = 1234.56
    ∧ parse_currency (.text ("1234,56")) = 1234.56
    ∧ parse_currency (.text ("garbage")) = 0
    ∧ (∀ s : String, pyFloat (normalizeSeps (stripCurrency s.toList)) = none →
        parse_currency (.text s) = 0) := by
  refine ⟨fun q => rfl, ?_, ?_, ?_, ?_⟩
  · have h1 : normalizeSeps (stripCurrency ['R', '$', ' ', '1', '.', '2', '3', '4', ',', '5', '6'])
        = ['1', '2', '3', '4', '.', '5', '6'] := by decide
    have h2 : splitOnChar '.' ['1', '2', '3', '4', '.', '5', '6']
        = [['1', '2', '3', '4'], ['5', '6']] := by decide
    have h3 : digitsToNat ['1', '2', '3', '4'] = 1234 := by decide
    have h4 : digitsToNat ['5', '6'] = 56 := by decide
    simp [parse_currency, h1, pyFloat, h2, h3, h4]
    norm_num
  · have h1 : normalizeSeps (stripCurrency ['1', '2', '3', '4', ',', '5', '6'])
        = ['1', '2', '3', '4', '.', '5', '6'] := by decide
    have h2 : splitOnChar '.' ['1', '2', '3', '4', '.', '5', '6']
        = [['1', '2', '3', '4'], ['5', '6']] := by decide
    have h3 : digitsToNat ['1', '2', '3', '4'] = 1234 := by decide
    have h4 : digitsToNat ['5', '6'] = 56 := by decide
    simp [parse_currency, h1, pyFloat, h2, h3, h4]
    norm_num
  · have h1 : pyFloat (normalizeSeps (stripCurrency ("garbage").toList)) = none := by decide
    simp only [parse_currency, h1, Option.getD_none]
  · intro s h
    simp only [parse_currency, h, Option.getD_none]

/-- Witness for C5: the lenient-default branch at a concrete unparseable
text. -/
theorem c5_parse_currency_witness :
    pyFloat (normalizeSeps (stripCurrency ("xyz").toList)) = none
    ∧ parse_currency (.text ("xyz")) = 0 :=
  ⟨by decide, c5_parse_currency.2.2.2.2 ("xyz") (by decide)⟩

/-- C10: for a text with a dot but no comma the dots stay in place, so
"1.234" parses as the decimal 1.234 rather than 1234, and "1.234.567"
fails the float parse and yields the lenient default 0. -/
theorem c10_dots_untouched :
    parse_currency (.text ("1.234")) = 1.234 ∧ parse_currency (.text ("1.234.567")) = 0 := by
  constructor
  · have h1 : normalizeSeps (stripCurrency ['1', '.', '2', '3', '4']) = ['1', '.', '2', '3', '4'] := by
      decide
    have h2 : splitOnChar '.' ['1', '.', '2', '3', '4'] = [['1'], ['2', '3', '4']] := by decide
    have h3 : digitsToNat ['1'] = 1 := by decide
    have h4 : digitsToNat ['2', '3', '4'] = 234 := by decide
    simp [parse_currency, h1, pyFloat, h2, h3, h4]
    norm_num
  · have h1 : pyFloat (normalizeSeps (stripCurrency ("1.234.567").toList)) = none := by decide
    simp only [parse_currency, h1, Option.getD_none]

/-- The relabel keeps the amount. -/
theorem relabelPago_valor (r : Row) : (relabelPago r).valor = r.valor := by
  unfold relabelPago; split <;> rfl

/-- The relabel never leaves a PAGO status behind. -/
theorem relabelPago_status_ne (r : Row) : (relabelPago r).status ≠ "PAGO" ∨ r.status ≠ "PAGO" := by
  unfold relabelPago
  split
  · exact Or.inl (by simp)
  · exact Or.inr (by assumption)

/-- A relabelled PAGO row displays as AGENDADO. -/
theorem relabelPago_of_pago (r : Row) (h : r.status = "PAGO") :
    relabelPago r = { r with status := "AGENDADO" } := by
  unfold relabelPago
  rw [if_pos h]

/-- A relabelled row never displays as PAGO. -/
theorem relabelPago_ne_pago (r : Row) : (relabelPago r).status ≠ "PAGO" := by
  unfold relabelPago
  split
  · simp
  · simpa using by assumption

/-- Relabelling a list of rows keeps its amount total. -/
theorem sumValor_map_relabel (l : List Row) : sumValor (l.map relabelPago) = sumValor l := by
  unfold sumValor
  rw [List.map_map]
  have : Row.valor ∘ relabelPago = Row.valor := funext fun r => relabelPago_valor r
  rw [this]

/-- The overdue mask as a proposition. -/
theorem mask_atraso_iff (hoje : Int) (r : Row) :
    mask_atraso hoje r = true ↔ (∃ v, r.vecto = some v ∧ v < hoje) ∧ r.pgto = none := by
  obtain ⟨vec, pg, val, st⟩ := r
  cases vec <;> cases pg <;> simp [mask_atraso]

/-- The today mask as a proposition. -/
theorem mask_dia_iff (hoje : Int) (r : Row) :
    mask_dia hoje r = true ↔ dataRef r = some hoje := by
  simp [mask_dia]

/-- C3: a normalized row is in the daily email's Overdue bucket exactly
when its due date is strictly before today and its payment date is
absent; a row due yesterday with no payment date is overdue and the same
row with a payment date is not. -/
theorem c3_overdue_bucket :
    (∀ (hoje : Int) (saldo : ℚ) (df : List Row) (r : Row),
        r ∈ (run_daily hoje saldo df).dfAtraso
          ↔ r ∈ df ∧ (∃ v, r.vecto = some v ∧ v < hoje) ∧ r.pgto = none)
    ∧ (∀ (hoje : Int) (v : ℚ) (st : String),
        mask_atraso hoje ⟨some (hoje - 1), none, v, st⟩ = true)
    ∧ (∀ (hoje p : Int) (v : ℚ) (st : String),
        mask_atraso hoje ⟨some (hoje - 1), some p, v, st⟩ = false) := by
  refine ⟨?_, ?_, ?_⟩
  · intro hoje saldo df r
    simp only [run_daily, List.mem_filter, mask_atraso_iff]
  · intro hoje v st
    simp [mask_atraso]
  · intro hoje p v st
    simp [mask_atraso]

/-- C4: in the daily digest the displayed adjusted balance is the raw
balance plus the amounts of Today-bucket rows originally marked PAGO, and
the displayed balance after paying the Today bucket is the adjusted
balance minus the Today-bucket total; the Today-bucket total is the
amount sum of the DATA_REF = today rows. -/
theorem c4_balance_adjustment :
    ∀ (hoje : Int) (saldo : ℚ) (df : List Row),
      (run_daily hoje saldo df).saldoAjustado
          = saldo + sumValor (df.filter (fun r => mask_dia hoje r && decide (r.status = "PAGO")))
      ∧ (run_daily hoje saldo df).saldoPosDia
          = (run_daily hoje saldo df).saldoAjustado - (run_daily hoje saldo df).totalHoje
      ∧ (run_daily hoje saldo df).totalHoje = sumValor (df.filter (mask_dia hoje)) := by
  intro hoje saldo df
  refine ⟨rfl, rfl, ?_⟩
  simp only [run_daily]
  exact sumValor_map_relabel _

/-- C9: the PAGO-to-AGENDADO override touches only the copied Today
bucket: the underlying table comes out of run_daily unchanged, no row of
the displayed Today bucket still reads PAGO, and the same-day-paid sum is
computed over the unrelabelled statuses of the underlying table. -/
theorem c9_relabel_frame :
    ∀ (hoje : Int) (saldo : ℚ) (df : List Row),
      (run_daily hoje saldo df).table = df
      ∧ ((run_daily hoje saldo df).dfHoje.filter (fun r => decide (r.status = "PAGO"))) = []
      ∧ (run_daily hoje saldo df).totalPagoDia
          = sumValor (((run_daily hoje saldo df).table).filter
              (fun r => mask_dia hoje r && decide (r.status = "PAGO"))) := by
  intro hoje saldo df
  refine ⟨rfl, ?_, rfl⟩
  simp only [run_daily]
  rw [List.filter_eq_nil_iff]
  intro r hr
  obtain ⟨r0, _, rfl⟩ := List.mem_map.mp hr
  simpa using relabelPago_ne_pago r0

/-- C2 (amended): in the daily email the Today bucket is exactly the
relabelled copy of the DATA_REF = today rows, so no displayed Today row
reads PAGO; a row due today with no payment date and status PAGO is in
that bucket (displayed AGENDADO) and not in Overdue.  The dashboard Hoje
view instead selects by due date alone and displays statuses unchanged. -/
theorem c2_today_bucket :
    (∀ (hoje : Int) (saldo : ℚ) (df : List Row) (r : Row),
        r ∈ (run_daily hoje saldo df).dfHoje
          ↔ ∃ r0, r0 ∈ df ∧ dataRef r0 = some hoje ∧ r = relabelPago r0)
    ∧ (∀ (hoje : Int) (saldo : ℚ) (df : List Row) (r : Row),
        r ∈ (run_daily hoje saldo df).dfHoje → r.status ≠ "PAGO")
    ∧ (∀ (hoje : Int) (v : ℚ),
        mask_dia hoje ⟨some hoje, none, v, "PAGO"⟩ = true
        ∧ mask_atraso hoje ⟨some hoje, none, v, "PAGO"⟩ = false
        ∧ (relabelPago ⟨some hoje, none, v, "PAGO"⟩).status = "AGENDADO")
    ∧ (∀ (hoje : Int) (df : List Row) (r : Row),
        r ∈ dashboardHoje hoje df ↔ r ∈ df ∧ r.vecto = some hoje) := by
  refine ⟨?_, ?_, ?_, ?_⟩
  · intro hoje saldo df r
    simp only [run_daily, List.mem_map, List.mem_filter, mask_dia_iff]
    constructor
    · rintro ⟨r0, ⟨h1, h2⟩, rfl⟩
      exact ⟨r0, h1, h2, rfl⟩
    · rintro ⟨r0, h1, h2, rfl⟩
      exact ⟨r0, ⟨h1, h2⟩, rfl⟩
  · intro hoje saldo df r hr
    simp only [run_daily, List.mem_map] at hr
    obtain ⟨r0, _, rfl⟩ := hr
    exact relabelPago_ne_pago r0
  · intro hoje v
    refine ⟨by simp [mask_dia, dataRef], by simp [mask_atraso], ?_⟩
    rw [relabelPago_of_pago _ rfl]
  · intro hoje df r
    simp [dashboardHoje, hoje_mask, List.mem_filter]

/-- Counterexample for C2 as stated: in the dashboard Hoje view a row
whose reference date (payment date) is today but whose due date is not is
left out, and a PAGO row due today is displayed as PAGO, not AGENDADO. -/
theorem c2_counterexample :
    dataRef ⟨some 11, some 10, 5, "PREVISTO"⟩ = some 10
    ∧ dashboardHoje 10 [⟨some 11, some 10, 5, "PREVISTO"⟩] = []
    ∧ (dashboardHoje 10 [⟨some 10, none, 5, "PAGO"⟩]).map Row.status = ["PAGO"] := by
  refine ⟨rfl, ?_, ?_⟩
  · simp [dashboardHoje, hoje_mask]
  · simp [dashboardHoje, hoje_mask]

/-- Witness for C2: the membership characterizations applied at a
concrete table. -/
theorem c2_today_bucket_witness :
    (relabelPago ⟨some 3, none, 5, "PAGO"⟩).status ≠ "PAGO"
    ∧ ((⟨some 3, none, 5, "PREVISTO"⟩ : Row) ∈ dashboardHoje 3 [⟨some 3, none, 5, "PREVISTO"⟩]) :=
  ⟨c2_today_bucket.2.1 3 0 [⟨some 3, none, 5, "PAGO"⟩] (relabelPago ⟨some 3, none, 5, "PAGO"⟩)
      ((c2_today_bucket.1 3 0 [⟨some 3, none, 5, "PAGO"⟩] _).mpr
        ⟨⟨some 3, none, 5, "PAGO"⟩, List.mem_singleton.mpr rfl, rfl, rfl⟩),
    (c2_today_bucket.2.2.2 3 [⟨some 3, none, 5, "PREVISTO"⟩] ⟨some 3, none, 5, "PREVISTO"⟩).mpr
      ⟨List.mem_singleton.mpr rfl, rfl⟩⟩

/-- C1 (amended): the dashboard Semana window always runs from the most
recent Saturday on or before today (weekday 5) through the following
Friday, both ends inclusive in the filter; the weekly email instead fixes
its window at today - 2 .. today + 4, which coincides with the Sat-Fri
window exactly on Mondays, the only weekday on which the script invokes
run_weekly; a row dated on either boundary passes the respective mask. -/
theorem c1_week_window :
    ∀ hoje : Int,
      weekday (dashboardWeekWindow hoje).1 = 5
      ∧ (dashboardWeekWindow hoje).1 ≤ hoje
      ∧ hoje ≤ (dashboardWeekWindow hoje).1 + 6
      ∧ (dashboardWeekWindow hoje).2 = (dashboardWeekWindow hoje).1 + 6
      ∧ weekday (dashboardWeekWindow hoje).2 = 4
      ∧ (∀ s : Int, weekday s = 5 → s ≤ hoje → s ≤ (dashboardWeekWindow hoje).1)
      ∧ (∀ (v : ℚ) (st : String),
          semana_mask hoje ⟨some (dashboardWeekWindow hoje).1, none, v, st⟩ = true
          ∧ semana_mask hoje ⟨some (dashboardWeekWindow hoje).2, none, v, st⟩ = true)
      ∧ (∀ (d : Int) (v : ℚ) (st : String), (d = hoje - 2 ∨ d = hoje + 4) →
          mask_periodo hoje ⟨some d, none, v, st⟩ = true)
      ∧ (weekday hoje = 0 → weeklyWindow hoje = dashboardWeekWindow hoje) := by
  intro hoje
  refine ⟨?_, ?_, ?_, ?_, ?_, ?_, ?_, ?_, ?_⟩
  · simp only [dashboardWeekWindow, weekday]; omega
  · simp only [dashboardWeekWindow, weekday]; omega
  · simp only [dashboardWeekWindow, weekday]; omega
  · simp only [dashboardWeekWindow, weekday]; omega
  · simp only [dashboardWeekWindow, weekday]; omega
  · intro s h1 h2
    simp only [dashboardWeekWindow, weekday] at h1 ⊢
    omega
  · intro v st
    constructor <;>
      · simp only [semana_mask, dashboardWeekWindow, weekday, Bool.and_eq_true, decide_eq_true_eq]
        omega
  · intro d v st hd
    simp only [mask_periodo, dataRef, Bool.and_eq_true, decide_eq_true_eq]
    omega
  · intro h
    simp only [weeklyWindow, dashboardWeekWindow, weekday] at h ⊢
    rw [Prod.mk.injEq]
    omega

/-- Counterexample for C1 as stated: on serial 4, the Wednesday
1900-01-03, the weekly email window today - 2 .. today + 4 runs Monday
through Sunday, not Saturday through Friday, and differs from the
dashboard Sat-Fri window. -/
theorem c1_counterexample :
    serialToDate 4 = ⟨1900, 1, 3⟩
    ∧ weekday 4 = 2
    ∧ weeklyWindow 4 = (2, 8)
    ∧ dashboardWeekWindow 4 = (0, 6)
    ∧ weeklyWindow 4 ≠ dashboardWeekWindow 4
    ∧ weekday (weeklyWindow 4).1 ≠ 5 := by
  refine ⟨by decide, by decide, by decide, by decide, by decide, by decide⟩

/-- Witness for C1: on the Monday serial 2 (1900-01-01) the weekly email
window coincides with the dashboard Sat-Fri window, and the
most-recent-Saturday bound applies to the Saturday serial 0. -/
theorem c1_week_window_witness :
    weekday 2 = 0
    ∧ weeklyWindow 2 = dashboardWeekWindow 2
    ∧ (0 : Int) ≤ (dashboardWeekWindow 2).1 :=
  ⟨by decide, (c1_week_window 2).2.2.2.2.2.2.2.2 (by decide),
    (c1_week_window 2).2.2.2.2.2.1 0 (by decide) (by decide)⟩

/-- C7 (amended): a due-date value that parses neither as a number nor as
a day-first date normalizes to the unknown sentinel (none, pandas NaT);
such a row never enters the due-date-keyed buckets (Overdue, dashboard
Hoje, dashboard Semana); it is also excluded from the reference-date
buckets (daily Today, weekly Period) and from their totals and contents
when its payment date is unknown as well, since DATA_REF falls back to
the due date only in that case. -/
theorem c7_unknown_dates :
    (∀ s : String, pyFloat s.toList = none → parseDayFirst s = none →
        normalizeDateCell (.text s) = none)
    ∧ (∀ (hoje : Int) (r : Row), r.vecto = none →
        mask_atraso hoje r = false
        ∧ hoje_mask hoje r = false
        ∧ semana_mask hoje r = false
        ∧ (r.pgto = none → mask_dia hoje r = false ∧ mask_periodo hoje r = false))
    ∧ (∀ (hoje : Int) (saldo : ℚ) (df : List Row) (r : Row), r.vecto = none → r.pgto = none →
        (run_daily hoje saldo (r :: df)).totalHoje = (run_daily hoje saldo df).totalHoje
        ∧ (run_daily hoje saldo (r :: df)).totalAtraso = (run_daily hoje saldo df).totalAtraso
        ∧ (run_daily hoje saldo (r :: df)).dfHoje = (run_daily hoje saldo df).dfHoje
        ∧ (run_daily hoje saldo (r :: df)).dfAtraso = (run_daily hoje saldo df).dfAtraso
        ∧ (run_weekly hoje saldo (r :: df)).alvo = (run_weekly hoje saldo df).alvo
        ∧ (run_weekly hoje saldo (r :: df)).totalPeriodo
            = (run_weekly hoje saldo df).totalPeriodo) := by
  refine ⟨?_, ?_, ?_⟩
  · intro s h1 h2
    have h1d : pyFloat s.data = none := h1
    simp [normalizeDateCell, h1d, h2]
  · intro hoje r hv
    refine ⟨by simp [mask_atraso, hv], by simp [hoje_mask, hv], by simp [semana_mask, hv], ?_⟩
    intro hp
    exact ⟨by simp [mask_dia, dataRef, hv, hp], by simp [mask_periodo, dataRef, hv, hp]⟩
  · intro hoje saldo df r hv hp
    have h1 : mask_dia hoje r = false := by simp [mask_dia, dataRef, hv, hp]
    have h2 : mask_atraso hoje r = false := by simp [mask_atraso, hv]
    have h3 : mask_periodo hoje r = false := by simp [mask_periodo, dataRef, hv, hp]
    refine ⟨?_, ?_, ?_, ?_, ?_, ?_⟩ <;>
      simp [run_daily, run_weekly, List.filter_cons, h1, h2, h3]

/-- Counterexample for C7 as stated: a row with an unknown due date but a
payment date equal to today has DATA_REF = today, so it lands in the
daily email Today bucket and counts towards its total. -/
theorem c7_counterexample :
    mask_dia 10 ⟨none, some 10, 5, "PREVISTO"⟩ = true
    ∧ (run_daily 10 0 [⟨none, some 10, 5, "PREVISTO"⟩]).dfHoje
        = [⟨none, some 10, 5, "PREVISTO"⟩]
    ∧ (run_daily 10 0 [⟨none, some 10, 5, "PREVISTO"⟩]).totalHoje = 5 := by
  refine ⟨by decide, ?_, ?_⟩
  · simp [run_daily, mask_dia, dataRef, relabelPago]
  · simp [run_daily, mask_dia, dataRef, relabelPago, sumValor]

/-- Witness for C7: the exclusion lemmas applied to a concrete row with
both dates unknown, and the sentinel on a concrete unparseable text. -/
theorem c7_unknown_dates_witness :
    normalizeDateCell (.text ("sem data")) = none
    ∧ mask_atraso 0 ⟨none, none, 1, "PREVISTO"⟩ = false
    ∧ mask_dia 0 ⟨none, none, 1, "PREVISTO"⟩ = false :=
  ⟨c7_unknown_dates.1 ("sem data") (by decide) (by decide),
   (c7_unknown_dates.2.1 0 ⟨none, none, 1, "PREVISTO"⟩ rfl).1,
   ((c7_unknown_dates.2.1 0 ⟨none, none, 1, "PREVISTO"⟩ rfl).2.2.2 rfl).1⟩

/-- C8 (amended): the dashboard table fetch degrades to the empty table on
malformed bodies and on error-keyed responses; the mailer table fetch
degrades on error-keyed responses but raises on malformed bodies; the
cell fetches yield 0 on error-keyed or payload-less bodies but raise on
malformed bodies.  The sources never inspect the HTTP status code, so a
non-2xx response acts through its body. -/
theorem c8_api_errors :
    (∀ rowsResp, appReadTable .malformed rowsResp = DataFrame.empty)
    ∧ (∀ colsResp, appReadTable colsResp .malformed = DataFrame.empty)
    ∧ (∀ (ce : Bool) (cols : List String) (re : Bool) (rows : List (List RawCell)),
        ce = true ∨ re = true →
        appReadTable (.body ce cols) (.body re rows) = DataFrame.empty)
    ∧ (∀ (ce : Bool) (cols : List String) (re : Bool) (rows : List (List RawCell)),
        ce = true ∨ re = true →
        remReadTable (.body ce cols) (.body re rows) = .ok DataFrame.empty)
    ∧ (∀ rowsResp, remReadTable .malformed rowsResp = .error ("JSONDecodeError"))
    ∧ appReadCell .malformed = .error ("JSONDecodeError")
    ∧ (∀ e : Bool, appReadCell (.body e none) = .ok 0)
    ∧ remReadSaldo .malformed = .error ("JSONDecodeError")
    ∧ (∀ v : Option RawCell, remReadSaldo (.body true v) = .ok 0)
    ∧ remReadSaldo (.body false none) = .ok 0 := by
  refine ⟨?_, ?_, ?_, ?_, ?_, rfl, ?_, rfl, ?_, rfl⟩
  · intro rowsResp; cases rowsResp <;> rfl
  · intro colsResp; cases colsResp <;> rfl
  · intro ce cols re rows h
    rcases h with h | h <;> subst h <;> simp [appReadTable]
  · intro ce cols re rows h
    rcases h with h | h <;> subst h
    · simp [remReadTable]
    · cases ce <;> simp [remReadTable]
  · intro rowsResp; cases rowsResp <;> rfl
  · intro e; rfl
  · intro v; rfl

/-- Counterexample for C8 as stated: a malformed (non-JSON) body makes the
mailer table fetch and both cell fetches raise instead of degrading. -/
theorem c8_counterexample :
    remReadTable .malformed (.body false []) = .error ("JSONDecodeError")
    ∧ appReadCell .malformed = .error ("JSONDecodeError")
    ∧ remReadSaldo .malformed = .error ("JSONDecodeError") :=
  ⟨rfl, rfl, rfl⟩

/-- Witness for C8: the error-keyed branches at concrete responses. -/
theorem c8_api_errors_witness :
    appReadTable (.body true []) (.body false []) = DataFrame.empty
    ∧ remReadTable (.body false []) (.body true []) = .ok DataFrame.empty :=
  ⟨c8_api_errors.2.2.1 true [] false [] (Or.inl rfl),
   c8_api_errors.2.2.2.1 false [] true [] (Or.inr rfl)⟩
